import Mathlib

/-!
Verification of the OpenCTI MCP server tool layer (`opencti_mcp_server_v7.py`).

The server composes a handful of primitives — entity-by-name lookup, forward
and reverse relationship traversal, report merge/deduplicate/sort — on top of
an external OpenCTI client.  We embed the server's functions shallowly: the
external client is a record of query functions (one field per pycti call the
server makes), raw platform records are structures with `Option` fields
(`none` encodes an absent dictionary key), and each tool is a Lean function
translated line by line from the Python source.
-/

namespace OpenCTI

/-! ## Python-level primitives -/

/-- Python string comparison is lexicographic on code points.  `charListLe`
compares two lists of characters by code point; it is the `≤` test used as the
building block for the report sort. -/
def charListLe : List Char → List Char → Bool
  | [], _ => true
  | _ :: _, [] => false
  | a :: as, b :: bs =>
    if a.toNat < b.toNat then true
    else if b.toNat < a.toNat then false
    else charListLe as bs

/-- Python `s <= t` on strings: code-point lexicographic comparison. -/
def pyStrLe (s t : String) : Bool := charListLe s.toList t.toList

/-- Python list slicing `xs[:limit]` for an arbitrary integer bound: a
non-negative bound keeps the first `limit` elements; a negative bound drops
`-limit` elements from the end (clamped at the empty list). -/
def pySliceTo (limit : Int) (xs : List α) : List α :=
  if 0 ≤ limit then xs.take limit.toNat
  else xs.take (xs.length - (-limit).toNat)

/-- Python truthiness of an optional string (`None` and `""` are falsy),
as used by `if not api_token` in `_create_opencti_client`. -/
def pyStrOptTruthy : Option String → Bool
  | none => false
  | some s => s != ""

/-! ## Raw platform records

Dictionaries returned by the OpenCTI client are semi-structured; an `Option`
field with value `none` models an absent key.  For report fields that the
server reads with a plain `dict.get(key)` and then null-coerces, the platform
may also deliver an explicit null, so those fields are `Option (Option _)`:
the outer `none` is an absent key, `some none` is a present null. -/

/-- A relationship endpoint dictionary (the value of a `"to"`/`"from"` key). -/
structure RawObject where
  id : Option String := none
  stix_id : Option String := none
  name : Option String := none
deriving DecidableEq

/-- A STIX core relationship record.  The `"to"`/`"from"` keys may be absent;
the server substitutes `{}` for them (`relationship.get("to", {})`).
`to`/`from` are reserved words in Lean, hence `toObj`/`fromObj`. -/
structure RawRelationship where
  toObj : Option RawObject := none
  fromObj : Option RawObject := none
deriving DecidableEq

/-- An entity returned by a point lookup.  The server indexes `entity["id"]`
unconditionally on every found entity, so the internal id is a total field. -/
structure RawEntity where
  id : String
deriving DecidableEq

/-- A raw report record.  `published`, `labels` and `description` distinguish
an absent key from a present null (see the section comment above). -/
structure RawReport where
  id : String
  stix_id : Option String := none
  name : Option String := none
  published : Option (Option String) := none
  labels : Option (Option (List String)) := none
  description : Option (Option String) := none
deriving DecidableEq

/-! ## Output records -/

/-- The two-field `{stix_id, name}` record produced by relationship traversal. -/
structure EntityRef where
  stix_id : String
  name : String
deriving DecidableEq

/-- The five-field report record produced by `search_reports` and the
`get_latest_reports*` tools; every field is a genuine string. -/
structure ReportOut where
  stix_id : String
  name : String
  published : String
  labels : String
  description : String
deriving DecidableEq

/-- The record produced by `get_report_details`.  Its `published` field is
`report.get("published", "")`, which yields the Python `None` when the key is
present with a null value; we model the field as `Option String`, where
`some s` is the Python string `s` and `none` is the Python `None`. -/
structure ReportDetails where
  stix_id : String
  name : String
  published : Option String
  labels : String
  description : String
deriving DecidableEq

/-! ## The upstream collaborator

The pycti client is modelled as a record of query functions, one field per
distinct call the server issues.  `*_read` fields are the exact-name point
lookups that `_find_entity_by_name` dispatches to; the relationship fields
take the id filter and the type filter of `stix_core_relationship.list`. -/

structure CTIClient where
  intrusion_set_read : String → Option RawEntity
  malware_read : String → Option RawEntity
  threat_actor_read : String → Option RawEntity
  report_read_by_name : String → Option RawReport
  identity_read : String → Option RawEntity
  identity_list : String → Int → List RawEntity
  stix_rels_from : String → List String → List RawRelationship
  stix_rels_to : String → List String → List RawRelationship
  report_read_by_id : String → Option RawReport
  report_list_search : String → List RawReport
  report_list_sorted : String → String → String → Int → List RawReport

/-! ## Client initialisation (`_create_opencti_client`) -/

/-- The two environment settings read at startup; `none` is an unset variable. -/
structure Env where
  OPENCTI_URL : Option String := none
  OPENCTI_TOKEN : Option String := none
deriving DecidableEq

/-- The constructed client handle: `OpenCTIApiClient(api_url, api_token)`. -/
structure OpenCTIApiClient where
  api_url : String
  api_token : String
deriving DecidableEq

/-- The typed startup failure (`raise RuntimeError(...)`). -/
inductive StartupError where
  | runtimeError (msg : String)
deriving DecidableEq

/-- `_create_opencti_client`: read `OPENCTI_URL` (with its default) and
`OPENCTI_TOKEN`; fail with a `RuntimeError` when the token is falsy
(`if not api_token`), otherwise build the client handle. -/
def _create_opencti_client (env : Env) : Except StartupError OpenCTIApiClient :=
  let api_url := env.OPENCTI_URL.getD "http://localhost:8080"
  let api_token := env.OPENCTI_TOKEN
  if !pyStrOptTruthy api_token then
    .error (.runtimeError
      "OPENCTI_TOKEN environment variable must be set to authenticate with OpenCTI")
  else
    .ok { api_url := api_url, api_token := api_token.getD "" }

/-! ## Formatting helpers -/

/-- A dynamically-typed Python value, as far as `_format_aliases` can observe
one: the documented input is `Optional[List[str]]`, but the function also
branches on truthiness and on `isinstance(..., list)`, so the embedding keeps
the other scalar shapes a caller could pass. -/
inductive PyVal where
  | vNone
  | vBool (b : Bool)
  | vInt (n : Int)
  | vStr (s : String)
  | vList (xs : List String)
deriving DecidableEq

/-- Python truthiness for `PyVal`. -/
def pyTruthy : PyVal → Bool
  | .vNone => false
  | .vBool b => b
  | .vInt n => n != 0
  | .vStr s => s != ""
  | .vList xs => !xs.isEmpty

/-- Python `isinstance(v, list)`. -/
def pyIsList : PyVal → Bool
  | .vList _ => true
  | _ => false

/-- Python `str(v)` on the values above (list elements shown with simple
quoting; no escape sequences arise in the properties below). -/
def pyStr : PyVal → String
  | .vNone => "None"
  | .vBool true => "True"
  | .vBool false => "False"
  | .vInt n => toString n
  | .vStr s => s
  | .vList xs => "[" ++ String.intercalate ", " (xs.map (fun s => "'" ++ s ++ "'")) ++ "]"

/-- `_format_aliases`: falsy input formats to `""`; a list joins with `", "`;
anything else goes through `str`. -/
def _format_aliases (alias_list : PyVal) : String :=
  if !pyTruthy alias_list then ""
  else
    match alias_list with
    | .vList xs => String.intercalate ", " xs
    | v => pyStr v

/-- `_format_relationship_target`: project the `"to"` endpoint (defaulting the
endpoint to `{}` and each field to `""`). -/
def _format_relationship_target (relationship : RawRelationship) : EntityRef :=
  let to_obj := relationship.toObj.getD {}
  { stix_id := to_obj.stix_id.getD "", name := to_obj.name.getD "" }

/-! ## Traversal primitives -/

/-- `_get_related_entities`: list relationships from the source entity and
map each one through `_format_relationship_target`. -/
def _get_related_entities (c : CTIClient) (from_entity_id : String)
    (to_types : List String) : List EntityRef :=
  let relations := c.stix_rels_from from_entity_id to_types
  relations.map _format_relationship_target

/-- `_get_reverse_related_entities`: list relationships into the target entity
and accumulate the projection of each `"from"` endpoint, mirroring the
`results = []; for rel in relations: results.append(...)` loop. -/
def _get_reverse_related_entities (c : CTIClient) (to_entity_id : String)
    (from_types : List String) : List EntityRef :=
  let relations := c.stix_rels_to to_entity_id from_types
  relations.foldl
    (fun results rel =>
      let from_obj := rel.fromObj.getD {}
      results ++ [{ stix_id := from_obj.stix_id.getD "", name := from_obj.name.getD "" }])
    []

/-! ## Lookup-then-traverse tools -/

/-- `get_malwares_of_intrusion_set`. -/
def get_malwares_of_intrusion_set (c : CTIClient) (intrusion_set_name : String) :
    List EntityRef :=
  match c.intrusion_set_read intrusion_set_name with
  | none => []
  | some intrusion_set => _get_related_entities c intrusion_set.id ["Malware"]

/-- `get_attack_patterns_of_intrusion_set`. -/
def get_attack_patterns_of_intrusion_set (c : CTIClient) (intrusion_set_name : String) :
    List EntityRef :=
  match c.intrusion_set_read intrusion_set_name with
  | none => []
  | some intrusion_set => _get_related_entities c intrusion_set.id ["Attack-Pattern"]

/-- `get_vulnerabilities_of_malware`. -/
def get_vulnerabilities_of_malware (c : CTIClient) (malware_name : String) :
    List EntityRef :=
  match c.malware_read malware_name with
  | none => []
  | some malware => _get_related_entities c malware.id ["Vulnerability"]

/-- `get_tools_used_by_intrusion_set`. -/
def get_tools_used_by_intrusion_set (c : CTIClient) (intrusion_set_name : String) :
    List EntityRef :=
  match c.intrusion_set_read intrusion_set_name with
  | none => []
  | some intrusion_set => _get_related_entities c intrusion_set.id ["Tool"]

/-- `get_ttps_of_threat_actor`. -/
def get_ttps_of_threat_actor (c : CTIClient) (threat_actor_name : String) :
    List EntityRef :=
  match c.threat_actor_read threat_actor_name with
  | none => []
  | some threat_actor => _get_related_entities c threat_actor.id ["Attack-Pattern"]

/-- `get_ttps_of_intrusion_set` (delegates to
`get_attack_patterns_of_intrusion_set`). -/
def get_ttps_of_intrusion_set (c : CTIClient) (intrusion_set_name : String) :
    List EntityRef :=
  get_attack_patterns_of_intrusion_set c intrusion_set_name

/-- `get_malwares_used_by_threat_actor`. -/
def get_malwares_used_by_threat_actor (c : CTIClient) (threat_actor_name : String) :
    List EntityRef :=
  match c.threat_actor_read threat_actor_name with
  | none => []
  | some threat_actor => _get_related_entities c threat_actor.id ["Malware"]

/-- `get_campaigns_by_threat_actor`. -/
def get_campaigns_by_threat_actor (c : CTIClient) (threat_actor_name : String) :
    List EntityRef :=
  match c.threat_actor_read threat_actor_name with
  | none => []
  | some threat_actor => _get_related_entities c threat_actor.id ["Campaign"]

/-- `get_vulnerabilities_exploited_by_threat_actor`. -/
def get_vulnerabilities_exploited_by_threat_actor (c : CTIClient)
    (threat_actor_name : String) : List EntityRef :=
  match c.threat_actor_read threat_actor_name with
  | none => []
  | some threat_actor => _get_related_entities c threat_actor.id ["Vulnerability"]

/-- `get_malwares_of_report`. -/
def get_malwares_of_report (c : CTIClient) (report_title : String) : List EntityRef :=
  match c.report_read_by_name report_title with
  | none => []
  | some report => _get_related_entities c report.id ["Malware"]

/-- `get_intrusion_sets_of_report`. -/
def get_intrusion_sets_of_report (c : CTIClient) (report_title : String) :
    List EntityRef :=
  match c.report_read_by_name report_title with
  | none => []
  | some report => _get_related_entities c report.id ["Intrusion-Set"]

/-! ## Report formatting and report tools -/

/-- The report record construction repeated verbatim in `search_reports`,
`get_latest_reports_by_sector`, `get_latest_reports_mentioning_threat_actor`
and `get_latest_reports`: null-coerce `published`, `labels` and `description`
(`report.get(key) or default`), join the labels, default `stix_id`/`name`. -/
def format_report_item (report : RawReport) : ReportOut :=
  let published := (report.published.bind id).getD ""
  let labels := (report.labels.bind id).getD []
  let labels_str := String.intercalate ", " labels
  { stix_id := report.stix_id.getD ""
    name := report.name.getD ""
    published := published
    labels := labels_str
    description := (report.description.bind id).getD "" }

/-- `search_reports`: free-text search, then the formatting loop. -/
def search_reports (c : CTIClient) (search_term : String) : List ReportOut :=
  let reports := c.report_list_search search_term
  reports.map format_report_item

/-- `get_report_details`: exact-title lookup; not found yields the all-empty
record, otherwise `published` is read with `report.get("published", "")`
(so a present null passes through as Python `None` = `none`). -/
def get_report_details (c : CTIClient) (report_title : String) : ReportDetails :=
  match c.report_read_by_name report_title with
  | none => { stix_id := "", name := "", published := some "", labels := "", description := "" }
  | some report =>
    let labels := (report.labels.bind id).getD []
    let labels_str := String.intercalate ", " labels
    { stix_id := report.stix_id.getD ""
      name := report.name.getD ""
      published := report.published.getD (some "")
      labels := labels_str
      description := (report.description.bind id).getD "" }

/-! ## Sector tools -/

/-- `get_threat_actors_targeting_sector`: exact-name identity lookup, fallback
free-text identity search capped at one result (`first=1`, `sectors[0]`), then
reverse traversal truncated by the Python slice `[:limit]`. -/
def get_threat_actors_targeting_sector (c : CTIClient) (sector_name : String)
    (limit : Int) : List EntityRef :=
  let sector : Option RawEntity :=
    match c.identity_read sector_name with
    | some s => some s
    | none => (c.identity_list sector_name 1).head?
  match sector with
  | none => []
  | some sector => pySliceTo limit (_get_reverse_related_entities c sector.id ["Threat-Actor"])

/-- `get_intrusion_sets_targeting_sector`: same shape as
`get_threat_actors_targeting_sector` with `Intrusion-Set` sources. -/
def get_intrusion_sets_targeting_sector (c : CTIClient) (sector_name : String)
    (limit : Int) : List EntityRef :=
  let sector : Option RawEntity :=
    match c.identity_read sector_name with
    | some s => some s
    | none => (c.identity_list sector_name 1).head?
  match sector with
  | none => []
  | some sector => pySliceTo limit (_get_reverse_related_entities c sector.id ["Intrusion-Set"])

/-! ## Reports mentioning a threat actor -/

/-- Report ids harvested from the forward relationship list: the
`for rel in relations: if to_obj.get("id"): report_ids.append(...)` loop.
Python's truthiness test on the id skips both an absent and an empty id. -/
def forward_report_ids (relations : List RawRelationship) : List String :=
  relations.foldl
    (fun report_ids rel =>
      let to_obj := rel.toObj.getD {}
      match to_obj.id with
      | some i => if i != "" then report_ids ++ [i] else report_ids
      | none => report_ids)
    []

/-- Report ids harvested from the reverse relationship list (`"from"` key). -/
def reverse_report_ids (relations : List RawRelationship) : List String :=
  relations.foldl
    (fun report_ids rel =>
      let from_obj := rel.fromObj.getD {}
      match from_obj.id with
      | some i => if i != "" then report_ids ++ [i] else report_ids
      | none => report_ids)
    []

/-- Python `set(report_ids)` before the re-fetch loop.  A hash set iterates in
an unspecified order, so we model it by `List.dedup` (one occurrence per
distinct id); every property proved below is insensitive to that order. -/
def pySetList (xs : List String) : List String := xs.dedup

/-- The re-fetch loop: `for report_id in set(report_ids): report =
report.read(id=...); if report: reports.append(report)`.  A `None` (or falsy)
response is `none` here and is skipped by the truthiness test. -/
def fetched_reports (c : CTIClient) (report_ids : List String) : List RawReport :=
  (pySetList report_ids).filterMap (fun report_id => c.report_read_by_id report_id)

/-- The sort key `lambda r: r.get("published") or ""`: a missing or null
publication date becomes the empty string. -/
def report_sort_key (r : RawReport) : String := (r.published.bind id).getD ""

/-- The order in which `reports.sort(key=..., reverse=True)` leaves the list:
descending code-point string order on the sort keys. -/
def reportDescOrder (a b : RawReport) : Prop :=
  pyStrLe (report_sort_key b) (report_sort_key a) = true

instance reportDescOrderDec : DecidableRel reportDescOrder :=
  fun a b => by unfold reportDescOrder; infer_instance

/-- `reports.sort(key=lambda r: r.get("published") or "", reverse=True)`,
modelled by a stable insertion sort under `reportDescOrder` (CPython's sort is
also stable descending under this comparison). -/
def sort_reports_desc (reports : List RawReport) : List RawReport :=
  List.insertionSort reportDescOrder reports

/-- The merged (forward then reverse) report id list built by
`get_latest_reports_mentioning_threat_actor` for a resolved actor. -/
def mentioned_report_ids (c : CTIClient) (actor : RawEntity) : List String :=
  forward_report_ids (c.stix_rels_from actor.id ["Report"]) ++
    reverse_report_ids (c.stix_rels_to actor.id ["Report"])

/-- The deduplicated, re-fetched, sorted report list of the resolved-actor
path, before the `[:limit]` truncation. -/
def sorted_mentioned_reports (c : CTIClient) (actor : RawEntity) : List RawReport :=
  sort_reports_desc (fetched_reports c (mentioned_report_ids c actor))

/-- `get_latest_reports_mentioning_threat_actor`: resolve the actor by exact
name; if that fails, fall back to a sorted free-text report search; otherwise
merge both relationship directions, deduplicate, re-fetch, sort, truncate.
Either way the final loop formats each report record. -/
def get_latest_reports_mentioning_threat_actor (c : CTIClient)
    (threat_actor_name : String) (limit : Int) : List ReportOut :=
  match c.threat_actor_read threat_actor_name with
  | none =>
    let reports := c.report_list_sorted threat_actor_name "published" "desc" limit
    reports.map format_report_item
  | some threat_actor =>
    let reports := pySliceTo limit (sorted_mentioned_reports c threat_actor)
    reports.map format_report_item

/-! ## Concrete collaborator fixtures

Small concrete clients used to evaluate the tools on explicit inputs. -/

/-- A collaborator on which every lookup misses and every listing is empty. -/
def emptyClient : CTIClient where
  intrusion_set_read := fun _ => none
  malware_read := fun _ => none
  threat_actor_read := fun _ => none
  report_read_by_name := fun _ => none
  identity_read := fun _ => none
  identity_list := fun _ _ => []
  stix_rels_from := fun _ _ => []
  stix_rels_to := fun _ _ => []
  report_read_by_id := fun _ => none
  report_list_search := fun _ => []
  report_list_sorted := fun _ _ _ _ => []

/-- A collaborator with one sector resolvable by exact name (two reverse
`Threat-Actor` relationships, one reverse `Intrusion-Set` relationship) and a
second sector reachable only through the free-text fallback. -/
def cSector : CTIClient :=
  { emptyClient with
    identity_read := fun n => if n = "Financial Sector" then some ⟨"sec-1"⟩ else none
    identity_list := fun n _ => if n = "finance" then [⟨"sec-2"⟩] else []
    stix_rels_to := fun i ts =>
      if i = "sec-1" then
        if ts = ["Threat-Actor"] then
          [{ fromObj := some { stix_id := some "threat-actor--1", name := some "APT28" } },
           { fromObj := some { stix_id := some "threat-actor--2", name := some "APT29" } }]
        else
          [{ fromObj := some { stix_id := some "intrusion-set--1", name := some "Lazarus" } }]
      else if i = "sec-2" then
        [{ fromObj := some { stix_id := some "threat-actor--3", name := some "FIN7" } }]
      else [] }

/-- The two reports of the `cActor` fixture: one dated, one with a present but
null publication date. -/
def rep1 : RawReport :=
  { id := "rep-1", stix_id := some "report--1", name := some "APT28 Analysis"
    published := some (some "2024-01-02") }

def rep2 : RawReport :=
  { id := "rep-2", stix_id := some "report--2", name := some "Undated Report"
    published := some none }

/-- A collaborator with one resolvable threat actor whose forward and reverse
report relationships overlap on `rep-1`. -/
def cActor : CTIClient :=
  { emptyClient with
    threat_actor_read := fun n => if n = "APT28" then some ⟨"actor-1"⟩ else none
    stix_rels_from := fun i _ =>
      if i = "actor-1" then [{ toObj := some { id := some "rep-1" } }] else []
    stix_rels_to := fun i _ =>
      if i = "actor-1" then
        [{ fromObj := some { id := some "rep-1" } },
         { fromObj := some { id := some "rep-2" } }]
      else []
    report_read_by_id := fun i =>
      if i = "rep-1" then some rep1 else if i = "rep-2" then some rep2 else none }

/-- A collaborator on which the threat actor never resolves but the sorted
free-text report search returns one report. -/
def cFallback : CTIClient :=
  { emptyClient with
    report_list_sorted := fun s _ _ _ => if s = "UnknownActor" then [rep1] else [] }

/-- A report whose `published` key is present with a null value. -/
def nullRep : RawReport :=
  { id := "rep-9", stix_id := some "report--9", name := some "Null Report"
    published := some none }

/-- A collaborator that finds `nullRep` by exact title and by free-text search. -/
def cNullRep : CTIClient :=
  { emptyClient with
    report_read_by_name := fun t => if t = "Null Report" then some nullRep else none
    report_list_search := fun _ => [nullRep] }

/-! ## Order facts for the Python string comparison -/

theorem charListLe_total : ∀ (l r : List Char), charListLe l r = true ∨ charListLe r l = true := by
  intro l
  induction l with
  | nil => intro r; exact Or.inl rfl
  | cons x xs ih =>
    intro r
    cases r with
    | nil => exact Or.inr rfl
    | cons y ys =>
      simp only [charListLe]
      rcases ih ys with h | h <;> split_ifs <;> simp_all

theorem charListLe_trans : ∀ (a b c : List Char),
    charListLe a b = true → charListLe b c = true → charListLe a c = true := by
  intro a
  induction a with
  | nil => intro b c _ _; rfl
  | cons x xs ih =>
    intro b c h1 h2
    cases b with
    | nil => simp [charListLe] at h1
    | cons y ys =>
      cases c with
      | nil => simp [charListLe] at h2
      | cons z zs =>
        simp only [charListLe] at h1 h2 ⊢
        split_ifs at h1 h2 ⊢ <;> first
          | rfl
          | omega
          | exact ih ys zs h1 h2

theorem charListLe_nil_right : ∀ (l : List Char), charListLe l [] = true → l = [] := by
  intro l h
  cases l with
  | nil => rfl
  | cons x xs => simp [charListLe] at h

theorem pyStrLe_total (s t : String) : pyStrLe s t = true ∨ pyStrLe t s = true :=
  charListLe_total s.toList t.toList

theorem pyStrLe_trans {s t u : String} (h1 : pyStrLe s t = true) (h2 : pyStrLe t u = true) :
    pyStrLe s u = true :=
  charListLe_trans s.toList t.toList u.toList h1 h2

theorem pyStrLe_empty_right {s : String} (h : pyStrLe s "" = true) : s = "" := by
  have hd : s.data = [] := charListLe_nil_right s.toList h
  cases s
  simp_all

instance reportDescOrderTotal : IsTotal RawReport reportDescOrder :=
  ⟨fun a b => pyStrLe_total (report_sort_key b) (report_sort_key a)⟩

instance reportDescOrderTrans : IsTrans RawReport reportDescOrder :=
  ⟨fun _ _ _ h1 h2 => pyStrLe_trans h2 h1⟩

/-! ## Loop characterisations -/

theorem foldl_append_singleton_eq_map {α β : Type} (g : α → β) :
    ∀ (l : List α) (acc : List β),
      l.foldl (fun res x => res ++ [g x]) acc = acc ++ l.map g := by
  intro l
  induction l with
  | nil => intro acc; simp
  | cons x xs ih => intro acc; simp [ih]

/-- The reverse-traversal accumulation loop is a map over the relationship
list, projecting each `"from"` endpoint. -/
theorem reverse_related_eq_map (c : CTIClient) (i : String) (ts : List String) :
    _get_reverse_related_entities c i ts =
      (c.stix_rels_to i ts).map (fun rel =>
        { stix_id := (rel.fromObj.getD {}).stix_id.getD ""
          name := (rel.fromObj.getD {}).name.getD "" }) := by
  unfold _get_reverse_related_entities
  simpa using foldl_append_singleton_eq_map
    (fun rel : RawRelationship =>
      ({ stix_id := (rel.fromObj.getD {}).stix_id.getD ""
         name := (rel.fromObj.getD {}).name.getD "" } : EntityRef))
    (c.stix_rels_to i ts) []

/-- On an exact-name hit, `get_threat_actors_targeting_sector` is the sliced
reverse traversal from the resolved sector. -/
theorem threat_actors_resolved (c : CTIClient) (nm : String) (L : Int) (s : RawEntity)
    (h : c.identity_read nm = some s) :
    get_threat_actors_targeting_sector c nm L =
      pySliceTo L (_get_reverse_related_entities c s.id ["Threat-Actor"]) := by
  simp [get_threat_actors_targeting_sector, h]

/-- On an exact-name hit, `get_intrusion_sets_targeting_sector` is the sliced
reverse traversal from the resolved sector. -/
theorem intrusion_sets_resolved (c : CTIClient) (nm : String) (L : Int) (s : RawEntity)
    (h : c.identity_read nm = some s) :
    get_intrusion_sets_targeting_sector c nm L =
      pySliceTo L (_get_reverse_related_entities c s.id ["Intrusion-Set"]) := by
  simp [get_intrusion_sets_targeting_sector, h]

/-- Re-fetching a list of ids whose fetches all succeed and echo their id
yields a report list whose ids are exactly that list. -/
theorem filterMap_fetch_map_id (fetch : String → Option RawReport) :
    ∀ (l : List String), (∀ i ∈ l, (fetch i).map RawReport.id = some i) →
      (l.filterMap fetch).map RawReport.id = l := by
  intro l
  induction l with
  | nil => intro _; rfl
  | cons i rest ih =>
    intro h
    have hi := h i (List.mem_cons_self i rest)
    cases hf : fetch i with
    | none => rw [hf] at hi; simp at hi
    | some r =>
      rw [hf] at hi
      simp at hi
      simp [List.filterMap_cons, hf, hi,
        ih (fun j hj => h j (List.mem_cons_of_mem _ hj))]

/-! ## Claims -/

/-- Claim C4: forward (`_get_related_entities`) and reverse
(`_get_reverse_related_entities`) traversal return one element per
relationship record, in the collaborator's order, each element being exactly
the `{stix_id, name}` projection of the counterpart endpoint (the `"to"`
endpoint forward, the `"from"` endpoint in reverse), with `""` substituted for
a missing field. -/
theorem claim_C4_traversal_projection (c : CTIClient) (eid : String) (types : List String) :
    (_get_related_entities c eid types).length = (c.stix_rels_from eid types).length ∧
    (_get_reverse_related_entities c eid types).length = (c.stix_rels_to eid types).length ∧
    (∀ i : Nat, (_get_related_entities c eid types)[i]? =
      ((c.stix_rels_from eid types)[i]?).map (fun rel =>
        ({ stix_id := (rel.toObj.getD {}).stix_id.getD ""
           name := (rel.toObj.getD {}).name.getD "" } : EntityRef))) ∧
    (∀ i : Nat, (_get_reverse_related_entities c eid types)[i]? =
      ((c.stix_rels_to eid types)[i]?).map (fun rel =>
        ({ stix_id := (rel.fromObj.getD {}).stix_id.getD ""
           name := (rel.fromObj.getD {}).name.getD "" } : EntityRef))) := by
  refine ⟨?_, ?_, ?_, ?_⟩
  · simp [_get_related_entities]
  · rw [reverse_related_eq_map]; simp
  · intro i
    simp only [_get_related_entities, List.getElem?_map]
    rfl
  · intro i
    rw [reverse_related_eq_map]
    simp [List.getElem?_map]

/-- Claim C2: every tool whose entity-by-name lookup yields nothing returns
the empty list, and `get_report_details` returns the record whose five fields
are all the empty string (`some ""` encodes the Python string `""` in the
`published` field); no tool returns a null or absent result in a not-found
case — the return values below are always a genuine list or record. -/
theorem claim_C2_not_found (c : CTIClient) (nm : String) :
    (c.intrusion_set_read nm = none →
      get_malwares_of_intrusion_set c nm = [] ∧
      get_attack_patterns_of_intrusion_set c nm = [] ∧
      get_tools_used_by_intrusion_set c nm = [] ∧
      get_ttps_of_intrusion_set c nm = []) ∧
    (c.malware_read nm = none → get_vulnerabilities_of_malware c nm = []) ∧
    (c.threat_actor_read nm = none →
      get_ttps_of_threat_actor c nm = [] ∧
      get_malwares_used_by_threat_actor c nm = [] ∧
      get_campaigns_by_threat_actor c nm = [] ∧
      get_vulnerabilities_exploited_by_threat_actor c nm = []) ∧
    (c.report_read_by_name nm = none →
      get_malwares_of_report c nm = [] ∧
      get_intrusion_sets_of_report c nm = [] ∧
      get_report_details c nm =
        { stix_id := "", name := "", published := some "", labels := "", description := "" }) := by
  refine ⟨fun h => ?_, fun h => ?_, fun h => ?_, fun h => ?_⟩
  · exact ⟨by simp [get_malwares_of_intrusion_set, h],
      by simp [get_attack_patterns_of_intrusion_set, h],
      by simp [get_tools_used_by_intrusion_set, h],
      by simp [get_ttps_of_intrusion_set, get_attack_patterns_of_intrusion_set, h]⟩
  · simp [get_vulnerabilities_of_malware, h]
  · exact ⟨by simp [get_ttps_of_threat_actor, h],
      by simp [get_malwares_used_by_threat_actor, h],
      by simp [get_campaigns_by_threat_actor, h],
      by simp [get_vulnerabilities_exploited_by_threat_actor, h]⟩
  · exact ⟨by simp [get_malwares_of_report, h],
      by simp [get_intrusion_sets_of_report, h],
      by simp [get_report_details, h]⟩

/-- Claim C2 witness: on the collaborator where every lookup misses, the
scenario tools return the empty list and the all-empty record. -/
theorem claim_C2_not_found_witness :
    get_malwares_of_intrusion_set emptyClient "DoesNotExist" = [] ∧
    get_report_details emptyClient "Nonexistent Report" =
      { stix_id := "", name := "", published := some "", labels := "", description := "" } :=
  ⟨((claim_C2_not_found emptyClient "DoesNotExist").1 rfl).1,
   ((claim_C2_not_found emptyClient "Nonexistent Report").2.2.2 rfl).2.2⟩

/-- Claim C5 counterexample: the falsy non-list scalar `False` is caught by
the `if not alias_list` branch, so `_format_aliases` returns `""` and not its
string representation `"False"`; the claim's scalar clause fails there. -/
theorem claim_C5_counterexample :
    pyIsList (PyVal.vBool false) = false ∧
    _format_aliases (PyVal.vBool false) = "" ∧
    pyStr (PyVal.vBool false) = "False" ∧
    _format_aliases (PyVal.vBool false) ≠ pyStr (PyVal.vBool false) := by
  refine ⟨rfl, rfl, rfl, ?_⟩
  decide

/-- Claim C5 (amended): `_format_aliases` maps `None` and the empty list to
`""`, a non-empty list to its elements joined by `", "` in order, and every
truthy non-list scalar to its string representation; a falsy non-list scalar
(such as `False` or `0`) maps to `""` instead. -/
theorem claim_C5_format_aliases :
    (_format_aliases PyVal.vNone = "") ∧
    (_format_aliases (PyVal.vList []) = "") ∧
    (∀ xs : List String, xs ≠ [] →
      _format_aliases (PyVal.vList xs) = String.intercalate ", " xs) ∧
    (∀ v : PyVal, pyIsList v = false → pyTruthy v = true → _format_aliases v = pyStr v) := by
  refine ⟨rfl, rfl, ?_, ?_⟩
  · intro xs hxs
    cases xs with
    | nil => exact absurd rfl hxs
    | cons y ys => simp [_format_aliases, pyTruthy]
  · intro v hl ht
    cases v <;> simp_all [_format_aliases, pyTruthy, pyIsList, pyStr]

/-- Claim C5 witness: a two-element alias list joins with `", "`, and a truthy
non-list scalar goes through its string representation. -/
theorem claim_C5_format_aliases_witness :
    _format_aliases (PyVal.vList ["alias1", "alias2"]) =
      String.intercalate ", " ["alias1", "alias2"] ∧
    _format_aliases (PyVal.vStr "single_alias") = pyStr (PyVal.vStr "single_alias") :=
  ⟨claim_C5_format_aliases.2.2.1 ["alias1", "alias2"] (by decide),
   claim_C5_format_aliases.2.2.2 (PyVal.vStr "single_alias") (by decide) (by decide)⟩

/-- Claim C7 counterexample: with `OPENCTI_TOKEN` set to the empty string the
token setting is present, yet client initialisation still fails, so failure is
not equivalent to the setting being absent. -/
theorem claim_C7_counterexample :
    ({ OPENCTI_URL := none, OPENCTI_TOKEN := some "" } : Env).OPENCTI_TOKEN ≠ none ∧
    ∃ e, _create_opencti_client { OPENCTI_URL := none, OPENCTI_TOKEN := some "" } =
      .error e :=
  ⟨by decide,
   .runtimeError "OPENCTI_TOKEN environment variable must be set to authenticate with OpenCTI",
   rfl⟩

/-- Claim C7 (amended): `_create_opencti_client` fails with the typed
`RuntimeError` exactly when the `OPENCTI_TOKEN` setting is absent or empty,
and otherwise returns one client handle carrying the token and the
`OPENCTI_URL` setting, defaulting to `http://localhost:8080` when unset. -/
theorem claim_C7_client_config (env : Env) :
    ((∃ e, _create_opencti_client env = .error e) ↔
      (env.OPENCTI_TOKEN = none ∨ env.OPENCTI_TOKEN = some "")) ∧
    (∀ e, _create_opencti_client env = .error e →
      e = .runtimeError
        "OPENCTI_TOKEN environment variable must be set to authenticate with OpenCTI") ∧
    (∀ t : String, env.OPENCTI_TOKEN = some t → t ≠ "" →
      _create_opencti_client env =
        .ok { api_url := env.OPENCTI_URL.getD "http://localhost:8080", api_token := t }) := by
  obtain ⟨url, tok⟩ := env
  cases tok with
  | none =>
    refine ⟨⟨fun _ => Or.inl rfl, fun _ => ⟨_, rfl⟩⟩, ?_, ?_⟩
    · intro e he
      simpa [_create_opencti_client, pyStrOptTruthy] using he.symm
    · intro t ht
      simp at ht
  | some t =>
    by_cases h : t = ""
    · subst h
      refine ⟨⟨fun _ => Or.inr rfl, fun _ => ⟨_, rfl⟩⟩, ?_, ?_⟩
      · intro e he
        simpa [_create_opencti_client, pyStrOptTruthy] using he.symm
      · intro u hu hne
        simp at hu
        exact absurd hu.symm hne
    · refine ⟨⟨?_, ?_⟩, ?_, ?_⟩
      · rintro ⟨e, he⟩
        simp [_create_opencti_client, pyStrOptTruthy, h] at he
      · rintro (h1 | h1) <;> simp_all
      · intro e he
        simp [_create_opencti_client, pyStrOptTruthy, h] at he
      · intro u hu hne
        simp at hu
        subst hu
        simp [_create_opencti_client, pyStrOptTruthy, h]

/-- Claim C7 witness: a set, non-empty token yields the client handle with the
default URL; an unset token yields the typed error. -/
theorem claim_C7_client_config_witness :
    _create_opencti_client { OPENCTI_URL := none, OPENCTI_TOKEN := some "secret" } =
      .ok { api_url := "http://localhost:8080", api_token := "secret" } ∧
    ∃ e, _create_opencti_client { OPENCTI_URL := none, OPENCTI_TOKEN := none } =
      .error e :=
  ⟨(claim_C7_client_config { OPENCTI_URL := none, OPENCTI_TOKEN := some "secret" }).2.2
      "secret" rfl (by decide),
   (claim_C7_client_config { OPENCTI_URL := none, OPENCTI_TOKEN := none }).1.mpr
      (Or.inl rfl)⟩

/-- Claim C8: sector resolution tries the exact-name lookup first — when it
hits, the result is the truncated reverse traversal from that sector, whatever
the fallback search would return; when it misses, the free-text search capped
at one result supplies the first hit; when both miss the tools return the
empty list without traversing. -/
theorem claim_C8_sector_resolution (c : CTIClient) (nm : String) (limit : Int) :
    (∀ s, c.identity_read nm = some s →
      get_threat_actors_targeting_sector c nm limit =
        pySliceTo limit (_get_reverse_related_entities c s.id ["Threat-Actor"]) ∧
      get_intrusion_sets_targeting_sector c nm limit =
        pySliceTo limit (_get_reverse_related_entities c s.id ["Intrusion-Set"])) ∧
    (∀ s rest, c.identity_read nm = none → c.identity_list nm 1 = s :: rest →
      get_threat_actors_targeting_sector c nm limit =
        pySliceTo limit (_get_reverse_related_entities c s.id ["Threat-Actor"]) ∧
      get_intrusion_sets_targeting_sector c nm limit =
        pySliceTo limit (_get_reverse_related_entities c s.id ["Intrusion-Set"])) ∧
    (c.identity_read nm = none → c.identity_list nm 1 = [] →
      get_threat_actors_targeting_sector c nm limit = [] ∧
      get_intrusion_sets_targeting_sector c nm limit = []) := by
  refine ⟨?_, ?_, ?_⟩
  · intro s h
    constructor
    · simp [get_threat_actors_targeting_sector, h]
    · simp [get_intrusion_sets_targeting_sector, h]
  · intro s rest h hl
    constructor
    · simp [get_threat_actors_targeting_sector, h, hl]
    · simp [get_intrusion_sets_targeting_sector, h, hl]
  · intro h hl
    constructor
    · simp [get_threat_actors_targeting_sector, h, hl]
    · simp [get_intrusion_sets_targeting_sector, h, hl]

/-- Claim C8 witness: on `cSector` the exact name resolves `"Financial
Sector"` directly, the fallback resolves `"finance"` through the first search
hit, and an unknown sector yields the empty list. -/
theorem claim_C8_sector_resolution_witness :
    get_threat_actors_targeting_sector cSector "Financial Sector" 10 =
      pySliceTo 10 (_get_reverse_related_entities cSector "sec-1" ["Threat-Actor"]) ∧
    get_threat_actors_targeting_sector cSector "finance" 10 =
      pySliceTo 10 (_get_reverse_related_entities cSector "sec-2" ["Threat-Actor"]) ∧
    get_threat_actors_targeting_sector cSector "Unknown" 10 = [] :=
  ⟨((claim_C8_sector_resolution cSector "Financial Sector" 10).1 ⟨"sec-1"⟩ rfl).1,
   ((claim_C8_sector_resolution cSector "finance" 10).2.1 ⟨"sec-2"⟩ [] rfl rfl).1,
   ((claim_C8_sector_resolution cSector "Unknown" 10).2.2 rfl rfl).1⟩

/-- Claim C3 counterexample: at `limit = -1` with two reverse relationships,
Python slicing keeps all but the last element (length `1`), which is not
`min(L, n) = -1`; the claim fails for negative integer limits. -/
theorem claim_C3_counterexample :
    ¬ (((get_threat_actors_targeting_sector cSector "Financial Sector" (-1)).length : Int) =
        min (-1 : Int) ((cSector.stix_rels_to "sec-1" ["Threat-Actor"]).length : Int)) := by
  decide

/-- Claim C3 (amended): for every non-negative integer limit `L` and a sector
resolved by exact name, both reverse-traversal tools return the first
`min(L, n)` elements of the collaborator-ordered projection, where `n` is the
number of matching relationship records. -/
theorem claim_C3_limit_law (c : CTIClient) (nm : String) (L : Int) (s : RawEntity)
    (hL : 0 ≤ L) (h : c.identity_read nm = some s) :
    ((get_threat_actors_targeting_sector c nm L).length =
        min L.toNat (c.stix_rels_to s.id ["Threat-Actor"]).length ∧
      get_threat_actors_targeting_sector c nm L =
        (_get_reverse_related_entities c s.id ["Threat-Actor"]).take L.toNat) ∧
    ((get_intrusion_sets_targeting_sector c nm L).length =
        min L.toNat (c.stix_rels_to s.id ["Intrusion-Set"]).length ∧
      get_intrusion_sets_targeting_sector c nm L =
        (_get_reverse_related_entities c s.id ["Intrusion-Set"]).take L.toNat) := by
  have hslice : ∀ xs : List EntityRef, pySliceTo L xs = xs.take L.toNat := by
    intro xs
    simp [pySliceTo, hL]
  constructor
  · constructor
    · rw [threat_actors_resolved c nm L s h, hslice, reverse_related_eq_map]
      simp [List.length_take]
    · rw [threat_actors_resolved c nm L s h, hslice]
  · constructor
    · rw [intrusion_sets_resolved c nm L s h, hslice, reverse_related_eq_map]
      simp [List.length_take]
    · rw [intrusion_sets_resolved c nm L s h, hslice]

/-- Claim C3 witness: `limit = 10` with two matching reverse relationships
returns exactly `min(10, 2) = 2` results. -/
theorem claim_C3_limit_law_witness :
    (get_threat_actors_targeting_sector cSector "Financial Sector" 10).length =
      min 10 (cSector.stix_rels_to "sec-1" ["Threat-Actor"]).length :=
  (claim_C3_limit_law cSector "Financial Sector" 10 ⟨"sec-1"⟩ (by decide) rfl).1.1

/-- Claim C9: when the threat actor does not resolve by exact name, the tool
returns the formatted result of the free-text report search ordered by
publication date descending and capped at `limit` — no error, no relationship
traversal. -/
theorem claim_C9_actor_fallback (c : CTIClient) (nm : String) (limit : Int)
    (h : c.threat_actor_read nm = none) :
    get_latest_reports_mentioning_threat_actor c nm limit =
      (c.report_list_sorted nm "published" "desc" limit).map format_report_item := by
  unfold get_latest_reports_mentioning_threat_actor
  rw [h]

/-- Claim C9 witness: on `cFallback` the unresolved actor name is answered by
the formatted free-text search result. -/
theorem claim_C9_actor_fallback_witness :
    get_latest_reports_mentioning_threat_actor cFallback "UnknownActor" 10 =
      [{ stix_id := "report--1", name := "APT28 Analysis", published := "2024-01-02"
         labels := "", description := "" }] := by
  rw [claim_C9_actor_fallback cFallback "UnknownActor" 10 rfl]
  decide

/-- Claim C10: for a found report whose `published` key is present but null,
`get_report_details` surfaces the Python `None` (modelled `none`) rather than
the empty string, whereas the shared formatting of `search_reports` (and the
other report-list tools) coerces a missing or null publication date to `""`
for the same record. -/
theorem claim_C10_published_null (c : CTIClient) (title term : String) (r : RawReport)
    (hfound : c.report_read_by_name title = some r)
    (hnull : r.published = some none) :
    (get_report_details c title).published = none ∧
    (format_report_item r).published = "" ∧
    (∀ i : Nat, (search_reports c term)[i]? =
      ((c.report_list_search term)[i]?).map format_report_item) := by
  refine ⟨?_, ?_, ?_⟩
  · simp [get_report_details, hfound, hnull]
  · simp [format_report_item, hnull]
  · intro i
    simp [search_reports, List.getElem?_map]

/-- Claim C10 witness: `nullRep` has a present-but-null publication date; the
details tool returns `none` for it while the search formatting returns `""`. -/
theorem claim_C10_published_null_witness :
    (get_report_details cNullRep "Null Report").published = none ∧
    (format_report_item nullRep).published = "" := by
  have h := claim_C10_published_null cNullRep "Null Report" "x" nullRep (by decide) rfl
  exact ⟨h.1, h.2.1⟩

/-- Claim C1: when the actor resolves by exact name and the forward report-id
set A and reverse report-id set B overlap, the merged, re-fetched, sorted
report list carries each distinct report identifier exactly once — no report
appears twice — and the tool returns that list truncated and formatted.
The fetch hypotheses say that every merged id re-fetches successfully and the
platform echoes the queried id. -/
theorem claim_C1_dedup_law (c : CTIClient) (nm : String) (actor : RawEntity) (limit : Int)
    (hactor : c.threat_actor_read nm = some actor)
    (hfetch : ∀ i ∈ mentioned_report_ids c actor,
      (c.report_read_by_id i).map RawReport.id = some i)
    (_hmeet : ∃ i, i ∈ forward_report_ids (c.stix_rels_from actor.id ["Report"]) ∧
      i ∈ reverse_report_ids (c.stix_rels_to actor.id ["Report"])) :
    (∀ i ∈ mentioned_report_ids c actor,
      (sorted_mentioned_reports c actor).countP (fun r => r.id == i) = 1) ∧
    (sorted_mentioned_reports c actor).Pairwise (fun a b => a.id ≠ b.id) ∧
    get_latest_reports_mentioning_threat_actor c nm limit =
      (pySliceTo limit (sorted_mentioned_reports c actor)).map format_report_item := by
  have hmap : (fetched_reports c (mentioned_report_ids c actor)).map RawReport.id =
      pySetList (mentioned_report_ids c actor) :=
    filterMap_fetch_map_id _ _ (fun i hi => hfetch i (List.mem_dedup.mp hi))
  have hperm : List.Perm (sorted_mentioned_reports c actor)
      (fetched_reports c (mentioned_report_ids c actor)) := by
    unfold sorted_mentioned_reports sort_reports_desc
    exact List.perm_insertionSort reportDescOrder _
  refine ⟨?_, ?_, ?_⟩
  · intro i hi
    rw [hperm.countP_eq]
    have h1 : (fetched_reports c (mentioned_report_ids c actor)).countP
        (fun r => r.id == i) =
        (pySetList (mentioned_report_ids c actor)).countP (fun s => s == i) := by
      rw [← hmap, List.countP_map]
      rfl
    rw [h1]
    have h2 : i ∈ pySetList (mentioned_report_ids c actor) := List.mem_dedup.mpr hi
    have h3 : (pySetList (mentioned_report_ids c actor)).Nodup := List.nodup_dedup _
    exact List.count_eq_one_of_mem h3 h2
  · have hn : ((fetched_reports c (mentioned_report_ids c actor)).map RawReport.id).Pairwise
        (fun a b => a ≠ b) := by
      rw [hmap]
      exact List.nodup_dedup _
    have hp : (fetched_reports c (mentioned_report_ids c actor)).Pairwise
        (fun a b => a.id ≠ b.id) := List.pairwise_map.mp hn
    exact (List.Perm.pairwise_iff (fun h => Ne.symm h) hperm).mpr hp
  · unfold get_latest_reports_mentioning_threat_actor
    rw [hactor]

/-- Claim C1 witness: on `cActor` the id `rep-1` is reachable in both
directions, yet appears exactly once in the sorted result, and the tool
output lists each of the two distinct reports once. -/
theorem claim_C1_dedup_law_witness :
    (sorted_mentioned_reports cActor ⟨"actor-1"⟩).countP (fun r => r.id == "rep-1") = 1 ∧
    get_latest_reports_mentioning_threat_actor cActor "APT28" 10 =
      [{ stix_id := "report--1", name := "APT28 Analysis", published := "2024-01-02"
         labels := "", description := "" },
       { stix_id := "report--2", name := "Undated Report", published := ""
         labels := "", description := "" }] := by
  have h := claim_C1_dedup_law cActor "APT28" ⟨"actor-1"⟩ 10 rfl (by decide)
    ⟨"rep-1", by decide, by decide⟩
  refine ⟨h.1 "rep-1" (by decide), ?_⟩
  rw [h.2.2]
  decide

/-- Claim C6: in the resolved-actor path the merged report list is sorted by
publication date in descending code-point string order, a missing (absent or
null) publication date is keyed as the empty string — so dateless reports sort
after every dated one — and the returned list is the first `limit` elements of
that sorted list, formatted. -/
theorem claim_C6_sort_law (c : CTIClient) (nm : String) (actor : RawEntity) (limit : Int)
    (hactor : c.threat_actor_read nm = some actor) :
    List.Sorted reportDescOrder (sorted_mentioned_reports c actor) ∧
    (∀ r : RawReport, r.published = none ∨ r.published = some none →
      report_sort_key r = "") ∧
    (∀ i j (hi : i < (sorted_mentioned_reports c actor).length)
        (hj : j < (sorted_mentioned_reports c actor).length), i < j →
      report_sort_key ((sorted_mentioned_reports c actor).get ⟨i, hi⟩) = "" →
      report_sort_key ((sorted_mentioned_reports c actor).get ⟨j, hj⟩) = "") ∧
    (0 ≤ limit →
      get_latest_reports_mentioning_threat_actor c nm limit =
        ((sorted_mentioned_reports c actor).take limit.toNat).map format_report_item) := by
  have hsorted : List.Sorted reportDescOrder (sorted_mentioned_reports c actor) := by
    unfold sorted_mentioned_reports sort_reports_desc
    exact List.sorted_insertionSort reportDescOrder _
  refine ⟨hsorted, ?_, ?_, ?_⟩
  · intro r h
    rcases h with h | h <;> simp [report_sort_key, h]
  · intro i j hi hj hij hkey
    have hdo := List.pairwise_iff_getElem.mp hsorted i j hi hj hij
    unfold reportDescOrder at hdo
    rw [List.get_eq_getElem] at hkey ⊢
    rw [hkey] at hdo
    exact pyStrLe_empty_right hdo
  · intro hL
    unfold get_latest_reports_mentioning_threat_actor
    rw [hactor]
    simp [pySliceTo, hL]

/-- Claim C6 witness: on `cActor` the dated report sorts before the dateless
one, and `limit = 2` returns the formatted two-element head of the sorted
list. -/
theorem claim_C6_sort_law_witness :
    List.Sorted reportDescOrder (sorted_mentioned_reports cActor ⟨"actor-1"⟩) ∧
    get_latest_reports_mentioning_threat_actor cActor "APT28" 2 =
      ((sorted_mentioned_reports cActor ⟨"actor-1"⟩).take 2).map format_report_item := by
  have h := claim_C6_sort_law cActor "APT28" ⟨"actor-1"⟩ 2 rfl
  exact ⟨h.1, h.2.2.2 (by decide)⟩

end OpenCTI
